import Mathlib

/-!
Shallow embedding of the revenue-orchestrator integration layer
(`src/utils/gmail.ts`, `src/utils/linkedin.ts`, `src/utils/calendly.ts`,
`src/utils/slack.ts`, `src/utils/webhooks.ts`, `src/api/webhooks.ts`).

Strings from the TypeScript source are modelled as Lean `String`s,
millisecond timestamps (`Date.getTime()`) as `Int`, counters as `Nat`.
Per-day localStorage counters are modelled as explicit state fields for
the current calendar day.
-/

namespace RevOrch

/-! ### String primitives

JavaScript compares strings lexicographically by code unit; for the
ASCII strings used here this agrees with codepoint order on `List Char`.
`String.startsWith` in the source is modelled through `List Char`
traversal so the kernel can evaluate it. -/

/-- Lexicographic `≤` on character lists, the JS `<=` on strings. -/
def listLe : List Char → List Char → Bool
  | [], _ => true
  | _ :: _, [] => false
  | a :: as, b :: bs => if a = b then listLe as bs else a < b

/-- JS string `<=` (lexicographic by code unit). -/
def jsStrLe (a b : String) : Bool := listLe a.data b.data

/-- `startsWith` on character lists: first argument is the string, second
the candidate head. -/
def listStartsWith : List Char → List Char → Bool
  | _, [] => true
  | [], _ :: _ => false
  | c :: s, p :: ps => c == p && listStartsWith s ps

/-- JS `String.prototype.startsWith`. -/
def strStartsWith (s p : String) : Bool := listStartsWith s.data p.data

theorem listStartsWith_append (p s : List Char) : listStartsWith (p ++ s) p = true := by
  induction p with
  | nil => cases s <;> rfl
  | cons c cs ih => simp [listStartsWith, ih]

theorem strStartsWith_append (p s : String) : strStartsWith (p ++ s) p = true := by
  unfold strStartsWith
  rw [String.data_append]
  exact listStartsWith_append _ _

theorem reject_not_approve (id : String) :
    strStartsWith ("reject_" ++ id) "approve_" = false := by
  have h : ("reject_" ++ id).data = 'r' :: ("eject_".data ++ id.data) := by
    rw [String.data_append]; rfl
  simp [strStartsWith, h, listStartsWith]

theorem edit_not_approve (id : String) :
    strStartsWith ("edit_" ++ id) "approve_" = false := by
  have h : ("edit_" ++ id).data = 'e' :: ("dit_".data ++ id.data) := by
    rw [String.data_append]; rfl
  simp [strStartsWith, h, listStartsWith]

theorem edit_not_reject (id : String) :
    strStartsWith ("edit_" ++ id) "reject_" = false := by
  have h : ("edit_" ++ id).data = 'e' :: ("dit_".data ++ id.data) := by
    rw [String.data_append]; rfl
  simp [strStartsWith, h, listStartsWith]

/-! ### Email channel (src/utils/gmail.ts) -/

/-- `EmailConfig` from gmail.ts (fields relevant to admission). -/
structure EmailConfig where
  dailyLimit : Nat
  startTime : String
  endTime : String
  warmupEnabled : Bool
deriving DecidableEq, Repr

/-- `DEFAULT_CONFIG` from gmail.ts. -/
def defaultEmailConfig : EmailConfig :=
  { dailyLimit := 50, startTime := "09:00", endTime := "17:00", warmupEnabled := true }

/-- `getWarmupLimit` from gmail.ts, as a function of the account age in days
(the source reads the age via `getAccountAgeInDays`). -/
def getWarmupLimit (accountAge : Nat) : Nat :=
  if accountAge < 7 then 10
  else if accountAge < 14 then 25
  else if accountAge < 21 then 50
  else 100

/-- `canSendToday` from gmail.ts: the daily-cap admission check for the
Email channel. `sentToday` is the value of `getTodaySentCount()`. -/
def canSendToday (config : EmailConfig) (accountAge sentToday : Nat) : Bool :=
  let warmupLimit := if config.warmupEnabled then getWarmupLimit accountAge else config.dailyLimit
  sentToday < min warmupLimit config.dailyLimit

/-- `incrementSentCount` from gmail.ts: bumps today's counter by one. -/
def incrementSentCount (sentToday : Nat) : Nat := sentToday + 1

/-- Modelled from the spec (§4.1): the effective daily limit,
`warmupEnabled ? min(warmupLimit(accountAge), dailyLimit) : dailyLimit`.
Declared next to `canSendToday` so the code check can be compared with the
spec formula. -/
def specEffectiveLimit (config : EmailConfig) (accountAge : Nat) : Nat :=
  if config.warmupEnabled then min (getWarmupLimit accountAge) config.dailyLimit
  else config.dailyLimit

/-- `isWithinSendingWindow` from gmail.ts: lexicographic comparison of
"HH:MM" strings, inclusive at both ends. -/
def isWithinSendingWindow (config : EmailConfig) (currentTime : String) : Bool :=
  jsStrLe config.startTime currentTime && jsStrLe currentTime config.endTime

/-- Outcome of the admission gates at the head of `sendOutreachEmail`
(gmail.ts): the error strings of the early returns, or `proceed` when all
gates pass and the function goes on to the external send. -/
inductive EmailGateOutcome where
  | dailyLimitReached
  | outsideWindow
  | proceed
deriving DecidableEq, Repr

/-- The gate sequence at the top of `sendOutreachEmail` (gmail.ts):
`canSendToday` first (deny "Daily sending limit reached"), then
`isWithinSendingWindow` (deny "Outside sending window"). -/
def sendOutreachEmailGate (config : EmailConfig) (accountAge sentToday : Nat)
    (currentTime : String) : EmailGateOutcome :=
  if !canSendToday config accountAge sentToday then .dailyLimitReached
  else if !isWithinSendingWindow config currentTime then .outsideWindow
  else .proceed

/-! ### ProfessionalNetwork channel (src/utils/linkedin.ts) -/

/-- `LinkedInConfig` from linkedin.ts. -/
structure LinkedInConfig where
  dailyConnectionLimit : Nat
  dailyInMailLimit : Nat
  actionDelayMinutes : Nat
  startTime : String
  endTime : String
  enableEngagement : Bool
  safetyLimitsEnabled : Bool
deriving DecidableEq, Repr

/-- `DEFAULT_CONFIG` from linkedin.ts. -/
def defaultLinkedInConfig : LinkedInConfig :=
  { dailyConnectionLimit := 15, dailyInMailLimit := 10, actionDelayMinutes := 120,
    startTime := "09:00", endTime := "17:00", enableEngagement := true,
    safetyLimitsEnabled := true }

/-- The two LinkedIn action kinds counted against daily caps. -/
inductive LinkedInActionType where
  | connection
  | inmail
deriving DecidableEq, Repr

/-- The localStorage-backed LinkedIn consumption state for the current
day: the two per-kind counters (`linkedin_connections_{today}` and
`linkedin_inmails_{today}`) plus the single channel-global
`linkedin_last_action` timestamp in milliseconds. -/
structure LinkedInState where
  connectionsToday : Nat
  inmailsToday : Nat
  lastAction : Option Int
deriving DecidableEq, Repr

/-- `canPerformAction` from linkedin.ts: the daily-cap admission check. -/
def canPerformAction (config : LinkedInConfig) (st : LinkedInState)
    (actionType : LinkedInActionType) : Bool :=
  if !config.safetyLimitsEnabled then true
  else
    match actionType with
    | .connection => st.connectionsToday < config.dailyConnectionLimit
    | .inmail => st.inmailsToday < config.dailyInMailLimit

/-- `isWithinLinkedInWindow` from linkedin.ts. -/
def isWithinLinkedInWindow (config : LinkedInConfig) (currentTime : String) : Bool :=
  jsStrLe config.startTime currentTime && jsStrLe currentTime config.endTime

/-- `canPerformActionNow` from linkedin.ts: the source divides the elapsed
milliseconds by 60000 and compares with `actionDelayMinutes`; over the
integers that comparison is equivalent to the scaled form used here. -/
def canPerformActionNow (config : LinkedInConfig) (st : LinkedInState) (now : Int) : Bool :=
  match st.lastAction with
  | none => true
  | some t => (config.actionDelayMinutes : Int) * 60000 ≤ now - t

/-- `updateLastActionTime` from linkedin.ts: writes the channel-global
`linkedin_last_action` key, shared by every action kind. -/
def updateLastActionTime (st : LinkedInState) (now : Int) : LinkedInState :=
  { st with lastAction := some now }

/-- `incrementActionCount` from linkedin.ts. -/
def incrementActionCount (st : LinkedInState) (actionType : LinkedInActionType) : LinkedInState :=
  match actionType with
  | .connection => { st with connectionsToday := st.connectionsToday + 1 }
  | .inmail => { st with inmailsToday := st.inmailsToday + 1 }

/-- `getNextAvailableTime` from linkedin.ts. -/
def getNextAvailableTime (config : LinkedInConfig) (st : LinkedInState) (now : Int) : Int :=
  match st.lastAction with
  | none => now
  | some t => t + (config.actionDelayMinutes : Int) * 60000

/-- Result of `sendConnectionRequest` / `sendInMail` (linkedin.ts), one
constructor per distinct return of the source: the three admission
denials carry the `scheduledFor` retry hint, `sent` carries the updated
consumption state, `agentFailed` is the non-success agent response. -/
inductive LinkedInSendOutcome where
  | dailyLimitReached (scheduledFor : Int)
  | outsideWindow (scheduledFor : Int)
  | delayNotMet (scheduledFor : Int)
  | sent (newState : LinkedInState)
  | agentFailed
deriving DecidableEq, Repr

/-- True exactly on the daily-cap denial outcome. -/
def isDailyLimitDenial : LinkedInSendOutcome → Bool
  | .dailyLimitReached _ => true
  | _ => false

/-- `sendConnectionRequest` from linkedin.ts. `now` is the wall clock in
milliseconds, `currentTime` its "HH:MM" rendering, `nextWindow` the value
of `getNextWindow()` (start of the next sending window, derived from the
wall clock), and `agentSuccess` the outcome of the external agent call. -/
def sendConnectionRequest (config : LinkedInConfig) (st : LinkedInState) (now : Int)
    (currentTime : String) (nextWindow : Int) (agentSuccess : Bool) : LinkedInSendOutcome :=
  if !canPerformAction config st .connection then .dailyLimitReached nextWindow
  else if !isWithinLinkedInWindow config currentTime then .outsideWindow nextWindow
  else if !canPerformActionNow config st now then .delayNotMet (getNextAvailableTime config st now)
  else if agentSuccess then .sent (updateLastActionTime (incrementActionCount st .connection) now)
  else .agentFailed

/-- `sendInMail` from linkedin.ts, same gate sequence with the InMail cap. -/
def sendInMail (config : LinkedInConfig) (st : LinkedInState) (now : Int)
    (currentTime : String) (nextWindow : Int) (agentSuccess : Bool) : LinkedInSendOutcome :=
  if !canPerformAction config st .inmail then .dailyLimitReached nextWindow
  else if !isWithinLinkedInWindow config currentTime then .outsideWindow nextWindow
  else if !canPerformActionNow config st now then .delayNotMet (getNextAvailableTime config st now)
  else if agentSuccess then .sent (updateLastActionTime (incrementActionCount st .inmail) now)
  else .agentFailed

/-! ### Meeting store (src/utils/calendly.ts, src/api/webhooks.ts) -/

/-- Meeting status values of `CalendlyMeeting` in calendly.ts. -/
inductive MeetingStatus where
  | scheduled
  | canceled
  | rescheduled
deriving DecidableEq, Repr

/-- `CalendlyMeeting` from calendly.ts. -/
structure CalendlyMeeting where
  eventId : String
  inviteeName : String
  inviteeEmail : String
  startTime : String
  endTime : String
  status : MeetingStatus
  meetingType : String
  duration : Nat
deriving DecidableEq, Repr

/-- `storeMeeting` from calendly.ts: pushes a new record onto the
`calendly_meetings` array unconditionally. -/
def storeMeeting (store : List CalendlyMeeting) (m : CalendlyMeeting) : List CalendlyMeeting :=
  store ++ [m]

/-- `updateMeetingStatus` from calendly.ts: maps over the stored array,
rewriting the status of records whose `eventId` matches. -/
def updateMeetingStatus (store : List CalendlyMeeting) (eventId : String)
    (status : MeetingStatus) : List CalendlyMeeting :=
  store.map fun m => if m.eventId = eventId then { m with status := status } else m

/-- `updateMeeting` from calendly.ts: maps over the stored array,
replacing records whose `eventId` matches with the new meeting. -/
def updateMeeting (store : List CalendlyMeeting) (meeting : CalendlyMeeting) :
    List CalendlyMeeting :=
  store.map fun m => if m.eventId = meeting.eventId then meeting else m

/-- The Calendly event kinds routed by `handleCalendlyWebhookEndpoint`. -/
inductive CalendlyEventType where
  | created
  | canceled
  | rescheduled
deriving DecidableEq, Repr

/-- The store effect of one delivery through `handleCalendlyWebhookEndpoint`
(api/webhooks.ts): the endpoint performs no idempotency lookup, so every
delivery is routed — `invitee.created` to `processMeetingBooked`
(which calls `storeMeeting`), `invitee.canceled` to
`processMeetingCanceled` (`updateMeetingStatus`), and
`invitee.rescheduled` to `processMeetingRescheduled` (`updateMeeting`). -/
def processCalendlyEvent (store : List CalendlyMeeting) (evt : CalendlyEventType)
    (m : CalendlyMeeting) : List CalendlyMeeting :=
  match evt with
  | .created => storeMeeting store m
  | .canceled => updateMeetingStatus store m.eventId .canceled
  | .rescheduled => updateMeeting store m

/-! ### Approvals (src/utils/webhooks.ts, src/utils/slack.ts) -/

/-- The value stored by `handleApproval` (utils/webhooks.ts) under one
outreach id of the `approvals` object. -/
structure ApprovalEntry where
  status : String
  approvedBy : String
deriving DecidableEq, Repr

/-- The `approvals` localStorage object as written by `handleApproval`:
a partial map from outreach id. -/
abbrev ApprovalStore := String → Option ApprovalEntry

/-- `handleApproval` from utils/webhooks.ts: unconditionally overwrites
the entry for `outreachId` with the new decision. -/
def handleApproval (store : ApprovalStore) (outreachId status approvedBy : String) :
    ApprovalStore :=
  fun k => if k = outreachId then some ⟨status, approvedBy⟩ else store k

/-- The value stored by `handleSlackApproval` (slack.ts) under one
outreach id of the `approvals` object. -/
structure SlackApprovalEntry where
  action : String
  userId : String
  userName : String
deriving DecidableEq, Repr

/-- The `approvals` object as written by `handleSlackApproval`. -/
abbrev SlackApprovalStore := String → Option SlackApprovalEntry

/-- `handleSlackApproval` from slack.ts: unconditionally overwrites the
entry for `outreachId` with the new decision. -/
def handleSlackApproval (store : SlackApprovalStore)
    (action outreachId userId userName : String) : SlackApprovalStore :=
  fun k => if k = outreachId then some ⟨action, userId, userName⟩ else store k

/-- One element of the `actions` block of `buildApprovalBlocks` (slack.ts)
and, equally, one entry of the `actions` array of a Slack
`block_actions` payload: the button `action_id` and its `value`. -/
structure SlackAction where
  actionId : String
  value : String
deriving DecidableEq, Repr

/-- The `actions` block elements of `buildApprovalBlocks` (slack.ts): the
Approve, Edit and Reject buttons in source order, each carrying the
outreach id both inside the `action_id` and as the `value`. -/
def buildApprovalActions (outreachId : String) : List SlackAction :=
  [⟨"approve_" ++ outreachId, outreachId⟩,
   ⟨"edit_" ++ outreachId, outreachId⟩,
   ⟨"reject_" ++ outreachId, outreachId⟩]

/-- The result object returned by `handleSlackInteraction`
(utils/webhooks.ts). -/
structure SlackInteractionResult where
  success : Bool
  message : String
  redirectUrl : Option String
deriving DecidableEq, Repr

/-- `handleSlackInteraction` from utils/webhooks.ts, for a `block_actions`
payload carrying one action: dispatches on the `action_id` prefix, applies
`handleApproval` for approve and reject, and returns the redirect for
edit without touching the store. -/
def handleSlackInteraction (store : ApprovalStore) (userName : String)
    (action : SlackAction) : SlackInteractionResult × ApprovalStore :=
  if strStartsWith action.actionId "approve_" then
    (⟨true, "Message approved and queued for sending", none⟩,
     handleApproval store action.value "approved" userName)
  else if strStartsWith action.actionId "reject_" then
    (⟨true, "Message rejected", none⟩,
     handleApproval store action.value "rejected" userName)
  else if strStartsWith action.actionId "edit_" then
    (⟨true, "Edit in dashboard", some ("/approval-queue?edit=" ++ action.value)⟩, store)
  else
    (⟨true, "Interaction processed", none⟩, store)

/-! ### Inbound-reply pipeline (src/utils/webhooks.ts, src/api/webhooks.ts,
src/utils/slack.ts) -/

/-- The kinds dispatched by the slack.ts notification functions, one per
`storeNotification` type tag. -/
inductive NotificationKind where
  | approvalRequested
  | positiveResponse
  | meetingBooked
  | dailyDigest
deriving DecidableEq, Repr

/-- The `enableNotifications` field of `SlackConfig` (slack.ts). -/
structure SlackNotifSettings where
  newOutreachStaged : Bool
  positiveResponses : Bool
  meetingsBooked : Bool
  dailyDigest : Bool
deriving DecidableEq, Repr

/-- The `enableNotifications` part of `DEFAULT_CONFIG` in slack.ts. -/
def defaultSlackNotifSettings : SlackNotifSettings :=
  ⟨true, true, true, true⟩

/-- `sendPositiveResponseNotification` from slack.ts, as the list of
notifications it records via `storeNotification`: one `positive_response`
entry when the setting is enabled, none otherwise. -/
def sendPositiveResponseNotification (settings : SlackNotifSettings) : List NotificationKind :=
  if settings.positiveResponses then [.positiveResponse] else []

/-- The result object of `handleGmailResponse` (utils/webhooks.ts): the
classifier agent label is passed in as `classification`; the handler
stores it and returns it. When the label is positive the handler also
calls the console-only `sendSlackNotification` stub in the same file,
which performs no durable write and is not a slack.ts dispatcher call. -/
structure GmailResponseResult where
  success : Bool
  classification : String
deriving DecidableEq, Repr

/-- `handleGmailResponse` from utils/webhooks.ts (see
`GmailResponseResult` for the modelling of its side effects). -/
def handleGmailResponse (classification : String) : GmailResponseResult :=
  ⟨true, classification⟩

/-- `handleGmailWebhookEndpoint` from api/webhooks.ts: processes the reply
through `handleGmailResponse`, then, when the stored classification is
positive, calls `sendPositiveResponseNotification`. Returns the HTTP
status together with the slack.ts notifications recorded for the reply. -/
def handleGmailWebhookEndpoint (settings : SlackNotifSettings) (classification : String) :
    Nat × List NotificationKind :=
  let result := handleGmailResponse classification
  if result.classification = "positive" then (200, sendPositiveResponseNotification settings)
  else (200, [])

/-! ### Webhook signature verification (src/utils/webhooks.ts,
src/api/webhooks.ts) -/

/-- `verifyCalendlyWebhook` from utils/webhooks.ts: a placeholder that
ignores its arguments and returns true. -/
def verifyCalendlyWebhook (_payload _signature _secret : String) : Bool := true

/-- `verifyOtterWebhook` from utils/webhooks.ts: same placeholder. -/
def verifyOtterWebhook (_payload _signature _secret : String) : Bool := true

/-- `verifySlackRequest` from utils/webhooks.ts: same placeholder, with
the Slack timestamp and body arguments. -/
def verifySlackRequest (_timestamp _signature _body _signingSecret : String) : Bool := true

/-- The signature-check prologue of `handleCalendlyWebhookEndpoint`
(api/webhooks.ts): `some 401` when a secret is configured and
verification fails, `none` when processing continues. -/
def calendlyAuthGate (body signature secret : String) : Option Nat :=
  if secret ≠ "" && !verifyCalendlyWebhook body signature secret then some 401 else none

/-- The signature-check prologue of `handleOtterWebhookEndpoint`. -/
def otterAuthGate (body signature secret : String) : Option Nat :=
  if secret ≠ "" && !verifyOtterWebhook body signature secret then some 401 else none

/-- The signature-check prologue of `handleSlackInteractionEndpoint`. -/
def slackAuthGate (timestamp signature body signingSecret : String) : Option Nat :=
  if signingSecret ≠ "" && !verifySlackRequest timestamp signature body signingSecret then
    some 401
  else none

/-! ## Claims -/

/-- C4: `getWarmupLimit` is a pure step function of the account age in
days — every age below 7 maps to 10, ages 7 through 13 map to 25, ages
14 through 20 map to 50, and every age 21 or above maps to 100. -/
theorem warmupLimit_step_function :
    (∀ age : Nat, age < 7 → getWarmupLimit age = 10) ∧
    (∀ age : Nat, 7 ≤ age → age ≤ 13 → getWarmupLimit age = 25) ∧
    (∀ age : Nat, 14 ≤ age → age ≤ 20 → getWarmupLimit age = 50) ∧
    (∀ age : Nat, 21 ≤ age → getWarmupLimit age = 100) := by
  refine ⟨fun age h => ?_, fun age h1 h2 => ?_, fun age h1 h2 => ?_, fun age h => ?_⟩ <;>
    · unfold getWarmupLimit
      repeat' split
      all_goals omega

/-- C4 witness: the step function evaluated at the boundary ages named in
the spec. -/
theorem warmupLimit_step_function_witness :
    getWarmupLimit 0 = 10 ∧ getWarmupLimit 6 = 10 ∧ getWarmupLimit 7 = 25 ∧
    getWarmupLimit 13 = 25 ∧ getWarmupLimit 14 = 50 ∧ getWarmupLimit 20 = 50 ∧
    getWarmupLimit 21 = 100 :=
  ⟨warmupLimit_step_function.1 0 (by decide),
   warmupLimit_step_function.1 6 (by decide),
   warmupLimit_step_function.2.1 7 (by decide) (by decide),
   warmupLimit_step_function.2.1 13 (by decide) (by decide),
   warmupLimit_step_function.2.2.1 14 (by decide) (by decide),
   warmupLimit_step_function.2.2.1 20 (by decide) (by decide),
   warmupLimit_step_function.2.2.2 21 (by decide)⟩

/-- C3: the three signature verifiers return true for every input, so the
Calendly, Otter and Slack endpoints never reject a delivery with a 401
authentication error, whatever the signature. -/
theorem verifiers_always_true_no_401 :
    (∀ payload signature secret : String,
      verifyCalendlyWebhook payload signature secret = true ∧
      verifyOtterWebhook payload signature secret = true ∧
      calendlyAuthGate payload signature secret = none ∧
      otterAuthGate payload signature secret = none) ∧
    (∀ timestamp signature body signingSecret : String,
      verifySlackRequest timestamp signature body signingSecret = true ∧
      slackAuthGate timestamp signature body signingSecret = none) := by
  refine ⟨fun p s k => ⟨rfl, rfl, ?_, ?_⟩, fun t s b k => ⟨rfl, ?_⟩⟩ <;>
    simp [calendlyAuthGate, otterAuthGate, slackAuthGate,
      verifyCalendlyWebhook, verifyOtterWebhook, verifySlackRequest]

/-- C10: when `safetyLimitsEnabled` is false, `canPerformAction` returns
true for both action kinds regardless of the recorded counts, and neither
`sendConnectionRequest` nor `sendInMail` can return the daily-cap
denial. -/
theorem safety_limits_disabled_bypasses_daily_cap :
    ∀ (config : LinkedInConfig) (st : LinkedInState) (now : Int) (currentTime : String)
      (nextWindow : Int) (agentSuccess : Bool),
      config.safetyLimitsEnabled = false →
      canPerformAction config st .connection = true ∧
      canPerformAction config st .inmail = true ∧
      isDailyLimitDenial
        (sendConnectionRequest config st now currentTime nextWindow agentSuccess) = false ∧
      isDailyLimitDenial
        (sendInMail config st now currentTime nextWindow agentSuccess) = false := by
  intro config st now currentTime nextWindow agentSuccess h
  have hc : canPerformAction config st .connection = true := by
    simp [canPerformAction, h]
  have hi : canPerformAction config st .inmail = true := by
    simp [canPerformAction, h]
  refine ⟨hc, hi, ?_, ?_⟩
  · unfold sendConnectionRequest
    simp only [hc, Bool.not_true, Bool.false_eq_true, if_false]
    repeat' split
    all_goals rfl
  · unfold sendInMail
    simp only [hi, Bool.not_true, Bool.false_eq_true, if_false]
    repeat' split
    all_goals rfl

/-- C10 witness: with safety limits disabled and 100 actions of each kind
already recorded today, both cap checks still allow and neither sender
returns the daily-cap denial. -/
theorem safety_limits_disabled_bypasses_daily_cap_witness :
    canPerformAction { defaultLinkedInConfig with safetyLimitsEnabled := false }
        ⟨100, 100, none⟩ .connection = true ∧
    canPerformAction { defaultLinkedInConfig with safetyLimitsEnabled := false }
        ⟨100, 100, none⟩ .inmail = true ∧
    isDailyLimitDenial
      (sendConnectionRequest { defaultLinkedInConfig with safetyLimitsEnabled := false }
        ⟨100, 100, none⟩ 0 "12:00" 0 true) = false ∧
    isDailyLimitDenial
      (sendInMail { defaultLinkedInConfig with safetyLimitsEnabled := false }
        ⟨100, 100, none⟩ 0 "12:00" 0 true) = false :=
  safety_limits_disabled_bypasses_daily_cap
    { defaultLinkedInConfig with safetyLimitsEnabled := false }
    ⟨100, 100, none⟩ 0 "12:00" 0 true rfl

theorem iterate_incrementSentCount (n : Nat) : incrementSentCount^[n] 0 = n := by
  induction n with
  | zero => rfl
  | succ k ih => rw [Function.iterate_succ_apply', ih]; rfl

/-- C1 counterexample: on the ProfessionalNetwork channel, with the
default configuration except `safetyLimitsEnabled := false`, the daily-cap
admission check allows a connection even though the recorded count (15)
is not strictly below the effective daily limit (15, warmup does not
apply to this channel), and the sender does not deny with the daily-limit
reason — so, as stated over every channel, the if-and-only-if fails. -/
theorem admission_iff_counterexample :
    canPerformAction { defaultLinkedInConfig with safetyLimitsEnabled := false }
        ⟨15, 0, none⟩ .connection = true ∧
    ¬ ((15 : Nat) <
        ({ defaultLinkedInConfig with safetyLimitsEnabled := false } :
          LinkedInConfig).dailyConnectionLimit) ∧
    isDailyLimitDenial
      (sendConnectionRequest { defaultLinkedInConfig with safetyLimitsEnabled := false }
        ⟨15, 0, none⟩ 0 "12:00" 0 true) = false := by
  refine ⟨rfl, by decide, ?_⟩
  decide

/-- C1 (amended): on the Email channel the admission check is exact —
`canSendToday` allows iff the count for today is strictly below the
effective limit `warmupEnabled ? min(warmupLimit(accountAge), dailyLimit)
: dailyLimit`, after `effectiveLimit` recorded actions starting from zero
the check denies, and the send gate then returns the daily-limit denial;
on the ProfessionalNetwork channel the cap check allows iff safety limits
are disabled or the per-kind count is strictly below the per-kind daily
limit, so the if-and-only-if in terms of the count alone holds only while
`safetyLimitsEnabled` is true. -/
theorem admission_iff_amended :
    (∀ (config : EmailConfig) (accountAge sentToday : Nat),
      canSendToday config accountAge sentToday = true ↔
        sentToday < specEffectiveLimit config accountAge) ∧
    (∀ (config : EmailConfig) (accountAge : Nat),
      canSendToday config accountAge
        (incrementSentCount^[specEffectiveLimit config accountAge] 0) = false) ∧
    (∀ (config : EmailConfig) (accountAge : Nat) (currentTime : String),
      sendOutreachEmailGate config accountAge (specEffectiveLimit config accountAge)
        currentTime = .dailyLimitReached) ∧
    (∀ (config : LinkedInConfig) (st : LinkedInState),
      (canPerformAction config st .connection = true ↔
        (config.safetyLimitsEnabled = false ∨
          st.connectionsToday < config.dailyConnectionLimit)) ∧
      (canPerformAction config st .inmail = true ↔
        (config.safetyLimitsEnabled = false ∨
          st.inmailsToday < config.dailyInMailLimit))) := by
  have hiff : ∀ (config : EmailConfig) (accountAge sentToday : Nat),
      canSendToday config accountAge sentToday = true ↔
        sentToday < specEffectiveLimit config accountAge := by
    intro config accountAge sentToday
    unfold canSendToday specEffectiveLimit
    cases h : config.warmupEnabled <;> simp [h]
  have hfull : ∀ (config : EmailConfig) (accountAge : Nat),
      canSendToday config accountAge (specEffectiveLimit config accountAge) = false := by
    intro config accountAge
    have := hiff config accountAge (specEffectiveLimit config accountAge)
    simp only [lt_self_iff_false, iff_false] at this
    exact Bool.not_eq_true _ |>.mp this
  refine ⟨hiff, ?_, ?_, ?_⟩
  · intro config accountAge
    rw [iterate_incrementSentCount]
    exact hfull config accountAge
  · intro config accountAge currentTime
    unfold sendOutreachEmailGate
    rw [hfull config accountAge]
    rfl
  · intro config st
    constructor <;>
      · unfold canPerformAction
        cases h : config.safetyLimitsEnabled <;> simp [h]

/-- C5: a ProfessionalNetwork action of either kind attempted while less
than `actionDelay` has elapsed since the channel-global
`lastActionTimestamp` is denied with the delay-not-met outcome, and the
returned `scheduledFor` hint equals `lastActionTimestamp + actionDelay`;
the timestamp is shared, not per kind — a successful send of either kind
stamps the one `lastAction` field read by both gates. -/
theorem delay_not_met_denial :
    (∀ (config : LinkedInConfig) (st : LinkedInState) (t now : Int) (currentTime : String)
       (nextWindow : Int) (agentSuccess : Bool),
       st.lastAction = some t →
       canPerformAction config st .connection = true →
       isWithinLinkedInWindow config currentTime = true →
       now - t < (config.actionDelayMinutes : Int) * 60000 →
       sendConnectionRequest config st now currentTime nextWindow agentSuccess =
         .delayNotMet (t + (config.actionDelayMinutes : Int) * 60000)) ∧
    (∀ (config : LinkedInConfig) (st : LinkedInState) (t now : Int) (currentTime : String)
       (nextWindow : Int) (agentSuccess : Bool),
       st.lastAction = some t →
       canPerformAction config st .inmail = true →
       isWithinLinkedInWindow config currentTime = true →
       now - t < (config.actionDelayMinutes : Int) * 60000 →
       sendInMail config st now currentTime nextWindow agentSuccess =
         .delayNotMet (t + (config.actionDelayMinutes : Int) * 60000)) ∧
    (∀ (config : LinkedInConfig) (st st' : LinkedInState) (now : Int) (currentTime : String)
       (nextWindow : Int) (agentSuccess : Bool),
       sendConnectionRequest config st now currentTime nextWindow agentSuccess = .sent st' →
       st'.lastAction = some now) ∧
    (∀ (config : LinkedInConfig) (st st' : LinkedInState) (now : Int) (currentTime : String)
       (nextWindow : Int) (agentSuccess : Bool),
       sendInMail config st now currentTime nextWindow agentSuccess = .sent st' →
       st'.lastAction = some now) := by
  have hdelay : ∀ (config : LinkedInConfig) (st : LinkedInState) (t now : Int),
      st.lastAction = some t →
      now - t < (config.actionDelayMinutes : Int) * 60000 →
      canPerformActionNow config st now = false := by
    intro config st t now hlast hlt
    unfold canPerformActionNow
    rw [hlast]
    simp only [decide_eq_false_iff_not, not_le]
    omega
  have hnext : ∀ (config : LinkedInConfig) (st : LinkedInState) (t now : Int),
      st.lastAction = some t →
      getNextAvailableTime config st now = t + (config.actionDelayMinutes : Int) * 60000 := by
    intro config st t now hlast
    unfold getNextAvailableTime
    rw [hlast]
  refine ⟨?_, ?_, ?_, ?_⟩
  · intro config st t now currentTime nextWindow agentSuccess hlast hcap hwin hlt
    unfold sendConnectionRequest
    rw [hcap, hwin, hdelay config st t now hlast hlt, hnext config st t now hlast]
    rfl
  · intro config st t now currentTime nextWindow agentSuccess hlast hcap hwin hlt
    unfold sendInMail
    rw [hcap, hwin, hdelay config st t now hlast hlt, hnext config st t now hlast]
    rfl
  · intro config st st' now currentTime nextWindow agentSuccess h
    unfold sendConnectionRequest at h
    repeat' split at h
    all_goals simp_all [updateLastActionTime]
    exact (congrArg LinkedInState.lastAction h.symm)
  · intro config st st' now currentTime nextWindow agentSuccess h
    unfold sendInMail at h
    repeat' split at h
    all_goals simp_all [updateLastActionTime]
    exact (congrArg LinkedInState.lastAction h.symm)

/-- C5 witness: a successful connection request at time 0 stamps the
shared timestamp, and an InMail attempted 60000 ms later (less than the
default 120-minute delay) is denied with the delay-not-met outcome and
retry hint 0 + 120 * 60000; a direct connection attempt under the same
state is denied identically. -/
theorem delay_not_met_denial_witness :
    (updateLastActionTime (incrementActionCount ⟨0, 0, none⟩ .connection) 0).lastAction =
        some 0 ∧
    sendInMail defaultLinkedInConfig ⟨1, 0, some 0⟩ 60000 "12:00" 0 true =
      .delayNotMet (0 + (120 : Int) * 60000) ∧
    sendConnectionRequest defaultLinkedInConfig ⟨1, 0, some 0⟩ 60000 "12:00" 0 true =
      .delayNotMet (0 + (120 : Int) * 60000) :=
  ⟨delay_not_met_denial.2.2.1 defaultLinkedInConfig ⟨0, 0, none⟩
      (updateLastActionTime (incrementActionCount ⟨0, 0, none⟩ .connection) 0)
      0 "12:00" 0 true (by decide),
   delay_not_met_denial.2.1 defaultLinkedInConfig ⟨1, 0, some 0⟩ 0 60000 "12:00" 0 true
      rfl (by decide) (by decide) (by decide),
   delay_not_met_denial.1 defaultLinkedInConfig ⟨1, 0, some 0⟩ 0 60000 "12:00" 0 true
      rfl (by decide) (by decide) (by decide)⟩

/-- C2 counterexample: delivering the same invitee.created event twice
through the endpoint appends two stored records for the same eventId —
two durable writes instead of one, because no idempotency store exists
and every delivery is routed to the handlers. -/
theorem dedupe_counterexample :
    (processCalendlyEvent
        (processCalendlyEvent [] .created
          ⟨"evt-1", "Ada", "ada@x.com", "2026-01-20T10:00Z", "2026-01-20T10:30Z",
            .scheduled, "Intro", 30⟩)
        .created
        ⟨"evt-1", "Ada", "ada@x.com", "2026-01-20T10:00Z", "2026-01-20T10:30Z",
          .scheduled, "Intro", 30⟩).length = 2 ∧
    ((processCalendlyEvent
        (processCalendlyEvent [] .created
          ⟨"evt-1", "Ada", "ada@x.com", "2026-01-20T10:00Z", "2026-01-20T10:30Z",
            .scheduled, "Intro", 30⟩)
        .created
        ⟨"evt-1", "Ada", "ada@x.com", "2026-01-20T10:00Z", "2026-01-20T10:30Z",
          .scheduled, "Intro", 30⟩).filter (fun m => m.eventId == "evt-1")).length = 2 := by
  constructor <;> rfl

/-- C2 (amended): there is no deduplication — every delivery is processed
again; re-delivering a created event appends a second record for the same
eventId (two durable writes), while re-delivering a canceled or
rescheduled event leaves the store exactly as after the first delivery
(those updates are idempotent). -/
theorem dedupe_amended :
    (∀ (s : List CalendlyMeeting) (m : CalendlyMeeting),
      processCalendlyEvent (processCalendlyEvent s .created m) .created m = s ++ [m, m]) ∧
    (∀ (s : List CalendlyMeeting) (m : CalendlyMeeting),
      processCalendlyEvent (processCalendlyEvent s .canceled m) .canceled m =
        processCalendlyEvent s .canceled m) ∧
    (∀ (s : List CalendlyMeeting) (m : CalendlyMeeting),
      processCalendlyEvent (processCalendlyEvent s .rescheduled m) .rescheduled m =
        processCalendlyEvent s .rescheduled m) := by
  refine ⟨?_, ?_, ?_⟩
  · intro s m
    simp [processCalendlyEvent, storeMeeting]
  · intro s m
    unfold processCalendlyEvent updateMeetingStatus
    rw [List.map_map]
    apply List.map_congr_left
    intro a _
    by_cases h : a.eventId = m.eventId <;> simp [h]
  · intro s m
    unfold processCalendlyEvent updateMeeting
    rw [List.map_map]
    apply List.map_congr_left
    intro a _
    by_cases h : a.eventId = m.eventId <;> simp [h]

/-- C8 counterexample: a rescheduled event processed when no prior
MeetingRecord exists for its eventId leaves the store unchanged — the
event is dropped instead of upserted, and no record with the new times is
stored. -/
theorem reschedule_upsert_counterexample :
    processCalendlyEvent [] .rescheduled
      ⟨"evt-9", "Ada", "ada@x.com", "2026-01-21T10:00Z", "2026-01-21T10:30Z",
        .rescheduled, "Intro", 30⟩ = [] := by
  rfl

/-- C8 (amended): the reschedule handler performs an in-place update, not
an upsert — when no stored record carries the eventId the store is left
unchanged and the event is dropped; when a prior record exists the new
meeting replaces it in place, with the new times stored and no duplicate
added. -/
theorem reschedule_update_amended :
    (∀ (s : List CalendlyMeeting) (m : CalendlyMeeting),
      (∀ m' ∈ s, m'.eventId ≠ m.eventId) →
      processCalendlyEvent s .rescheduled m = s) ∧
    (∀ (s : List CalendlyMeeting) (m : CalendlyMeeting),
      (∃ m' ∈ s, m'.eventId = m.eventId) →
      m ∈ processCalendlyEvent s .rescheduled m ∧
      (processCalendlyEvent s .rescheduled m).length = s.length) := by
  have hid : ∀ (s : List CalendlyMeeting) (m : CalendlyMeeting),
      (∀ m' ∈ s, m'.eventId ≠ m.eventId) → updateMeeting s m = s := by
    intro s m h
    unfold updateMeeting
    induction s with
    | nil => rfl
    | cons a as ih =>
      have ha : a.eventId ≠ m.eventId := h a (List.mem_cons_self a as)
      simp only [List.map_cons, if_neg ha]
      rw [ih (fun m' hm' => h m' (List.mem_cons_of_mem a hm'))]
  constructor
  · intro s m h
    show updateMeeting s m = s
    exact hid s m h
  · intro s m h
    refine ⟨?_, ?_⟩
    · obtain ⟨m', hm', heq⟩ := h
      show m ∈ updateMeeting s m
      exact List.mem_map.mpr ⟨m', hm', by rw [if_pos heq]⟩
    · show (updateMeeting s m).length = s.length
      exact List.length_map _ _

/-- C8 witness: with one stored record for evt-9, the reschedule replaces
it in place (the new times are stored, length stays 1); with a store
holding only evt-8, a reschedule of evt-9 leaves it unchanged. -/
theorem reschedule_update_amended_witness :
    (⟨"evt-9", "Ada", "ada@x.com", "2026-01-21T10:00Z", "2026-01-21T10:30Z",
        .rescheduled, "Intro", 30⟩ : CalendlyMeeting) ∈
      processCalendlyEvent
        [⟨"evt-9", "Ada", "ada@x.com", "2026-01-20T10:00Z", "2026-01-20T10:30Z",
          .scheduled, "Intro", 30⟩] .rescheduled
        ⟨"evt-9", "Ada", "ada@x.com", "2026-01-21T10:00Z", "2026-01-21T10:30Z",
          .rescheduled, "Intro", 30⟩ ∧
    (processCalendlyEvent
        [⟨"evt-9", "Ada", "ada@x.com", "2026-01-20T10:00Z", "2026-01-20T10:30Z",
          .scheduled, "Intro", 30⟩] .rescheduled
        ⟨"evt-9", "Ada", "ada@x.com", "2026-01-21T10:00Z", "2026-01-21T10:30Z",
          .rescheduled, "Intro", 30⟩).length = 1 ∧
    processCalendlyEvent
        [⟨"evt-8", "Bob", "bob@x.com", "2026-01-20T10:00Z", "2026-01-20T10:30Z",
          .scheduled, "Intro", 30⟩] .rescheduled
        ⟨"evt-9", "Ada", "ada@x.com", "2026-01-21T10:00Z", "2026-01-21T10:30Z",
          .rescheduled, "Intro", 30⟩ =
      [⟨"evt-8", "Bob", "bob@x.com", "2026-01-20T10:00Z", "2026-01-20T10:30Z",
        .scheduled, "Intro", 30⟩] :=
  ⟨(reschedule_update_amended.2 _ _ (by decide)).1,
   (reschedule_update_amended.2 _ _ (by decide)).2,
   reschedule_update_amended.1 _ _ (by decide)⟩

/-- C6 counterexample: an approve interactive action on outreach o1
records status approved, but a subsequent reject on the same record is
neither rejected nor a no-op — it silently overwrites the decision, so
the record ends rejected and the first decision is not left in place. -/
theorem approval_one_way_counterexample :
    ((handleSlackInteraction
        ((handleSlackInteraction (fun _ => none) "alice" ⟨"approve_o1", "o1"⟩).2)
        "bob" ⟨"reject_o1", "o1"⟩).2) "o1" = some ⟨"rejected", "bob"⟩ ∧
    ((handleSlackInteraction
        ((handleSlackInteraction (fun _ => none) "alice" ⟨"approve_o1", "o1"⟩).2)
        "bob" ⟨"reject_o1", "o1"⟩).2) "o1" ≠ some ⟨"approved", "alice"⟩ := by
  constructor
  · rfl
  · decide

/-- C6 (amended): an approve action on a pending (undecided) record sets
it to approved, but the transition is not one-way — both `handleApproval`
and `handleSlackApproval` unconditionally overwrite, so a second decision
replaces the first instead of being rejected or ignored. -/
theorem approval_overwrite_amended :
    (∀ (store : ApprovalStore) (outreachId userName : String),
      store outreachId = none →
      (handleSlackInteraction store userName
          ⟨"approve_" ++ outreachId, outreachId⟩).2 outreachId =
        some ⟨"approved", userName⟩) ∧
    (∀ (store : ApprovalStore) (outreachId status1 status2 u1 u2 : String),
      handleApproval (handleApproval store outreachId status1 u1) outreachId status2 u2
          outreachId = some ⟨status2, u2⟩) ∧
    (∀ (store : SlackApprovalStore) (outreachId a1 a2 id1 id2 n1 n2 : String),
      handleSlackApproval (handleSlackApproval store a1 outreachId id1 n1)
          a2 outreachId id2 n2 outreachId = some ⟨a2, id2, n2⟩) := by
  refine ⟨?_, ?_, ?_⟩
  · intro store outreachId userName _
    unfold handleSlackInteraction
    rw [strStartsWith_append]
    simp [handleApproval]
  · intro store outreachId status1 status2 u1 u2
    simp [handleApproval]
  · intro store outreachId a1 a2 id1 id2 n1 n2
    simp [handleSlackApproval]

/-- C6 amended witness: starting from the empty approvals store, approving
o1 yields status approved; overwriting twice through each store keeps
only the latest decision. -/
theorem approval_overwrite_amended_witness :
    (handleSlackInteraction (fun _ => none) "alice" ⟨"approve_" ++ "o1", "o1"⟩).2 "o1" =
        some ⟨"approved", "alice"⟩ ∧
    handleApproval (handleApproval (fun _ => none) "o1" "approved" "alice")
        "o1" "rejected" "bob" "o1" = some ⟨"rejected", "bob"⟩ ∧
    handleSlackApproval (handleSlackApproval (fun _ => none) "approve" "o1" "U1" "alice")
        "reject" "o1" "U2" "bob" "o1" = some ⟨"reject", "U2", "bob"⟩ :=
  ⟨approval_overwrite_amended.1 (fun _ => none) "o1" "alice" rfl,
   approval_overwrite_amended.2.1 (fun _ => none) "o1" "approved" "rejected" "alice" "bob",
   approval_overwrite_amended.2.2 (fun _ => none) "o1" "approve" "reject" "U1" "U2"
     "alice" "bob"⟩

/-- C9: the approval notification embeds exactly the three action
identifiers approve, edit and reject suffixed with the outreach id, each
carrying the id as its value, and feeding any of them back through the
interactive-action handler resolves to the same outreach id and applies
the matching transition — approve stores status approved, reject stores
status rejected, and edit leaves the store untouched and returns the
dashboard redirect for the id. -/
theorem approval_actions_roundtrip :
    ∀ outreachId : String,
      (buildApprovalActions outreachId).map SlackAction.actionId =
        ["approve_" ++ outreachId, "edit_" ++ outreachId, "reject_" ++ outreachId] ∧
      (∀ a ∈ buildApprovalActions outreachId, a.value = outreachId) ∧
      (∀ (store : ApprovalStore) (userName : String),
        (handleSlackInteraction store userName
            ⟨"approve_" ++ outreachId, outreachId⟩).2 outreachId =
          some ⟨"approved", userName⟩ ∧
        (handleSlackInteraction store userName
            ⟨"reject_" ++ outreachId, outreachId⟩).2 outreachId =
          some ⟨"rejected", userName⟩ ∧
        (handleSlackInteraction store userName
            ⟨"edit_" ++ outreachId, outreachId⟩).2 = store ∧
        (handleSlackInteraction store userName
            ⟨"edit_" ++ outreachId, outreachId⟩).1.redirectUrl =
          some ("/approval-queue?edit=" ++ outreachId)) := by
  intro outreachId
  refine ⟨rfl, ?_, ?_⟩
  · intro a ha
    simp only [buildApprovalActions, List.mem_cons, List.not_mem_nil, or_false] at ha
    rcases ha with h | h | h <;> rw [h]
  · intro store userName
    have happrove := strStartsWith_append "approve_" outreachId
    have hreject := strStartsWith_append "reject_" outreachId
    have hedit := strStartsWith_append "edit_" outreachId
    refine ⟨?_, ?_, ?_, ?_⟩
    · unfold handleSlackInteraction
      rw [happrove]
      simp [handleApproval]
    · unfold handleSlackInteraction
      rw [reject_not_approve, hreject]
      simp [handleApproval]
    · unfold handleSlackInteraction
      rw [edit_not_approve, edit_not_reject, hedit]
      rfl
    · unfold handleSlackInteraction
      rw [edit_not_approve, edit_not_reject, hedit]
      rfl

/-- C9 witness: the round trip evaluated for the concrete outreach id o1
with the empty store. -/
theorem approval_actions_roundtrip_witness :
    (buildApprovalActions "o1").map SlackAction.actionId =
        ["approve_" ++ "o1", "edit_" ++ "o1", "reject_" ++ "o1"] ∧
    (⟨"approve_" ++ "o1", "o1"⟩ : SlackAction).value = "o1" ∧
    (handleSlackInteraction (fun _ => none) "alice"
        ⟨"reject_" ++ "o1", "o1"⟩).2 "o1" = some ⟨"rejected", "alice"⟩ ∧
    (handleSlackInteraction (fun _ => none) "alice"
        ⟨"edit_" ++ "o1", "o1"⟩).1.redirectUrl = some ("/approval-queue?edit=" ++ "o1") :=
  ⟨(approval_actions_roundtrip "o1").1,
   (approval_actions_roundtrip "o1").2.1 ⟨"approve_" ++ "o1", "o1"⟩ (by decide),
   ((approval_actions_roundtrip "o1").2.2 (fun _ => none) "alice").2.1,
   (((approval_actions_roundtrip "o1").2.2 (fun _ => none) "alice").2.2).2⟩

/-- C7: an inbound reply the classifier labels positive triggers exactly
one PositiveResponse dispatch through the slack notification module
(under any settings with positive-response notifications enabled, in
particular the defaults), and a reply labeled neutral triggers zero
notifications of any kind. -/
theorem positive_reply_single_notification :
    (∀ settings : SlackNotifSettings, settings.positiveResponses = true →
      ((handleGmailWebhookEndpoint settings "positive").2.count .positiveResponse = 1 ∧
       (handleGmailWebhookEndpoint settings "positive").1 = 200)) ∧
    (∀ settings : SlackNotifSettings,
      (handleGmailWebhookEndpoint settings "neutral").2 = [] ∧
      (handleGmailWebhookEndpoint settings "neutral").1 = 200) := by
  constructor
  · intro settings h
    unfold handleGmailWebhookEndpoint handleGmailResponse sendPositiveResponseNotification
    rw [h]
    constructor <;> rfl
  · intro settings
    unfold handleGmailWebhookEndpoint handleGmailResponse
    constructor <;> rfl

/-- C7 witness: under the default slack settings, a positive reply
dispatches exactly one PositiveResponse notification and a neutral reply
dispatches none. -/
theorem positive_reply_single_notification_witness :
    ((handleGmailWebhookEndpoint defaultSlackNotifSettings "positive").2.count
        .positiveResponse = 1 ∧
     (handleGmailWebhookEndpoint defaultSlackNotifSettings "positive").1 = 200) ∧
    ((handleGmailWebhookEndpoint defaultSlackNotifSettings "neutral").2 = [] ∧
     (handleGmailWebhookEndpoint defaultSlackNotifSettings "neutral").1 = 200) :=
  ⟨positive_reply_single_notification.1 defaultSlackNotifSettings rfl,
   positive_reply_single_notification.2 defaultSlackNotifSettings⟩

end RevOrch
